import Mathlib

/-!
Verification development for the `UserProxyAgent` turn controller
(`flaml/autogen/agent/user_proxy_agent.py`): a shallow embedding of the
structured-argument parser (`_format_json_str`, `_extract_args`), the
code-execution loop (`_execute_code`), the function-call dispatcher
(`_execute_function`) and the turn controller (`receive`), together with
theorems settling the specified properties.
-/

namespace UserProxy

/-- JSON values, as produced by Python's `json.loads` on the fragment this
program exercises (objects, arrays, strings, integer numbers, booleans,
null).  Non-integer numbers are not used by the program's argument strings
and are treated as unparsable by this model. -/
inductive Json where
  | null : Json
  | bool (b : Bool) : Json
  | num (n : Int) : Json
  | str (s : String) : Json
  | arr (xs : List Json) : Json
  | obj (kvs : List (String × Json)) : Json

/-- JSON whitespace characters, as accepted by Python's `json` module. -/
def isJsonWs (c : Char) : Bool :=
  c = ' ' ∨ c = '\t' ∨ c = '\n' ∨ c = '\r'

/-- Drop leading JSON whitespace. -/
def skipWs : List Char → List Char
  | [] => []
  | c :: rest => if isJsonWs c then skipWs rest else c :: rest

/-- Value of a hexadecimal digit. -/
def hexVal (c : Char) : Option Nat :=
  if '0' ≤ c ∧ c ≤ '9' then some (c.toNat - '0'.toNat)
  else if 'a' ≤ c ∧ c ≤ 'f' then some (c.toNat - 'a'.toNat + 10)
  else if 'A' ≤ c ∧ c ≤ 'F' then some (c.toNat - 'A'.toNat + 10)
  else none

/-- Single-character JSON escape sequences. -/
def escChar (c : Char) : Option Char :=
  if c = '"' then some '"'
  else if c = '\\' then some '\\'
  else if c = '/' then some '/'
  else if c = 'b' then some (Char.ofNat 8)
  else if c = 'f' then some (Char.ofNat 12)
  else if c = 'n' then some '\n'
  else if c = 'r' then some '\r'
  else if c = 't' then some '\t'
  else none

/-- Parse the body of a JSON string (the opening quote already consumed),
in strict mode: an unescaped control character is a parse error, exactly as
in `json.loads` with its default `strict=True`. -/
def parseStringBody (fuel : Nat) (l : List Char) : Option (List Char × List Char) :=
  match fuel, l with
  | 0, _ => none
  | _, [] => none
  | fuel + 1, c :: rest =>
    if c = '"' then some ([], rest)
    else if c = '\\' then
      match rest with
      | [] => none
      | e :: rest₂ =>
        if e = 'u' then
          match rest₂ with
          | a :: b :: c₃ :: d :: rest₃ =>
            match hexVal a, hexVal b, hexVal c₃, hexVal d with
            | some ha, some hb, some hc, some hd =>
              (parseStringBody fuel rest₃).map
                (fun p => (Char.ofNat (((ha * 16 + hb) * 16 + hc) * 16 + hd) :: p.1, p.2))
            | _, _, _, _ => none
          | _ => none
        else
          match escChar e with
          | some ec => (parseStringBody fuel rest₂).map (fun p => (ec :: p.1, p.2))
          | none => none
    else if c.toNat < 32 then none
    else (parseStringBody fuel rest).map (fun p => (c :: p.1, p.2))

/-- Parse a run of decimal digits. -/
def parseDigits : List Char → List Char × List Char
  | [] => ([], [])
  | c :: rest =>
    if '0' ≤ c ∧ c ≤ '9' then
      let p := parseDigits rest
      (c :: p.1, p.2)
    else ([], c :: rest)

/-- Digits to a natural number. -/
def digitsToNat (ds : List Char) : Nat :=
  ds.foldl (fun acc c => acc * 10 + (c.toNat - '0'.toNat)) 0

/-- Parse a JSON integer literal (optional minus sign, no leading zeros,
no fraction/exponent: the non-integer grammar is outside this model and
yields a parse failure). -/
def parseNumber (l : List Char) : Option (Int × List Char) :=
  let (neg, l₁) := match l with
    | '-' :: rest => (true, rest)
    | _ => (false, l)
  match parseDigits l₁ with
  | ([], _) => none
  | (d :: ds, rest) =>
    if d = '0' ∧ ds ≠ [] then none
    else
      match rest with
      | '.' :: _ => none
      | 'e' :: _ => none
      | 'E' :: _ => none
      | _ =>
        let n : Int := Int.ofNat (digitsToNat (d :: ds))
        some (if neg then -n else n, rest)

mutual

/-- Parse one JSON value, skipping leading whitespace. -/
def parseValue (fuel : Nat) (l : List Char) : Option (Json × List Char) :=
  match fuel with
  | 0 => none
  | fuel + 1 =>
    match skipWs l with
    | [] => none
    | c :: rest =>
      if c = '{' then
        match skipWs rest with
        | '}' :: rest₂ => some (Json.obj [], rest₂)
        | rest₂ => (parseMembers fuel rest₂).map (fun p => (Json.obj p.1, p.2))
      else if c = '[' then
        match skipWs rest with
        | ']' :: rest₂ => some (Json.arr [], rest₂)
        | rest₂ => (parseElements fuel rest₂).map (fun p => (Json.arr p.1, p.2))
      else if c = '"' then
        (parseStringBody fuel rest).map (fun p => (Json.str (String.mk p.1), p.2))
      else
        match c :: rest with
        | 't' :: 'r' :: 'u' :: 'e' :: rest₂ => some (Json.bool true, rest₂)
        | 'f' :: 'a' :: 'l' :: 's' :: 'e' :: rest₂ => some (Json.bool false, rest₂)
        | 'n' :: 'u' :: 'l' :: 'l' :: rest₂ => some (Json.null, rest₂)
        | l₂ => (parseNumber l₂).map (fun p => (Json.num p.1, p.2))

/-- Parse the members of a JSON object, positioned at the first key. -/
def parseMembers (fuel : Nat) (l : List Char) : Option (List (String × Json) × List Char) :=
  match fuel with
  | 0 => none
  | fuel + 1 =>
    match skipWs l with
    | '"' :: rest =>
      match parseStringBody fuel rest with
      | none => none
      | some (key, rest₂) =>
        match skipWs rest₂ with
        | ':' :: rest₃ =>
          match parseValue fuel rest₃ with
          | none => none
          | some (v, rest₄) =>
            match skipWs rest₄ with
            | ',' :: rest₅ =>
              (parseMembers fuel rest₅).map
                (fun p => ((String.mk key, v) :: p.1, p.2))
            | '}' :: rest₅ => some ([(String.mk key, v)], rest₅)
            | _ => none
        | _ => none
    | _ => none

/-- Parse the elements of a JSON array, positioned at the first element. -/
def parseElements (fuel : Nat) (l : List Char) : Option (List Json × List Char) :=
  match fuel with
  | 0 => none
  | fuel + 1 =>
    match parseValue fuel l with
    | none => none
    | some (v, rest) =>
      match skipWs rest with
      | ',' :: rest₂ => (parseElements fuel rest₂).map (fun p => (v :: p.1, p.2))
      | ']' :: rest₂ => some ([v], rest₂)
      | _ => none

end

/-- Model of Python's `json.loads`: parse one value and require only
whitespace after it; `none` models a raised `JSONDecodeError`. -/
def json_loads (s : String) : Option Json :=
  match parseValue (s.length + 1) s.data with
  | none => none
  | some (v, rest) => if skipWs rest = [] then some v else none

/-- One step of `_format_json_str`'s character scan: the quote-toggle uses
the previous character (`last_char != '\\' and char == '"'`); newlines are
dropped outside quotes and escaped inside; tabs are escaped inside. -/
def formatChars (inside : Bool) (last : Char) : List Char → List Char
  | [] => []
  | c :: rest =>
    let inside' := if last ≠ '\\' ∧ c = '"' then !inside else inside
    if inside' = false ∧ c = '\n' then formatChars inside' c rest
    else if inside' = true ∧ c = '\n' then '\\' :: 'n' :: formatChars inside' c rest
    else if inside' = true ∧ c = '\t' then '\\' :: 't' :: formatChars inside' c rest
    else c :: formatChars inside' c rest

/-- `UserProxyAgent._format_json_str`: remove newlines outside of quotes and
escape newline/tab inside quotes; `inside_quotes` starts `False`, `last_char`
starts as a space. -/
def _format_json_str (jstr : String) : String :=
  String.mk (formatChars false ' ' jstr.data)

/-- `UserProxyAgent._extract_args`: format the string, then `json.loads` it;
a `JSONDecodeError` is caught and yields the empty mapping.  (Any JSON value
the parse produces is returned as-is, as in the source.) -/
def _extract_args (input_string : String) : Json :=
  match json_loads (_format_json_str input_string) with
  | some v => v
  | none => Json.obj []

/-- Characters stripped by Python's `str.strip()`. -/
def isPySpace (c : Char) : Bool :=
  c = ' ' ∨ c = '\t' ∨ c = '\n' ∨ c = '\r' ∨ c = Char.ofNat 11 ∨ c = Char.ofNat 12

/-- Python `str.strip()`: drop leading and trailing whitespace. -/
def pyStrip (l : List Char) : List Char :=
  ((l.dropWhile isPySpace).reverse.dropWhile isPySpace).reverse

/-- Python `str.find(c)`: index of the first occurrence, or `-1`. -/
def pyFindChar (l : List Char) (c : Char) : Int :=
  match l.findIdx? (fun x => x = c) with
  | some i => (i : Int)
  | none => -1

/-- Python slice `l[i:j]` for int indices: a negative bound counts from the
end, and bounds are clamped to the sequence. -/
def pySlice (l : List Char) (i j : Int) : List Char :=
  (l.take (if j < 0 then ((l.length : Int) + j).toNat else min j.toNat l.length)).drop
    (if i < 0 then ((l.length : Int) + i).toNat else min i.toNat l.length)

/-- Python `str.startswith`: the candidate is a prefix of the string. -/
def pyStartsWith (s pre : String) : Bool :=
  pre.data.isPrefixOf s.data

/-- The filename passed to the execution service for a python block:
`code[11 : code.find("\n")].strip()` when the code starts with the
directive `"# filename: "`, else `None` (the service chooses). -/
def pythonFilename (code : String) : Option String :=
  if pyStartsWith code "# filename: " then
    some (String.mk (pyStrip (pySlice code.data 11 (pyFindChar code.data '\n'))))
  else none

/-- One invocation of the external `execute_code` service, recording every
argument the controller passes: the source text, the working directory, the
filename (python blocks only), the current value of the `_use_docker` field,
and the language tag (shell blocks only; python blocks leave it defaulted).
`Img` is the type of the opaque value held by `_use_docker` (a boolean at
construction, whatever the service returns afterwards). -/
structure ExecCall (Img : Type) where
  code : String
  workDir : Option String
  filename : Option String
  useDocker : Img
  lang : Option String
deriving DecidableEq

/-- The shell-family language tags of `_execute_code`. -/
def shellLangs : List String := ["bash", "shell", "sh"]

/-- Per-block dispatch of `_execute_code`: an empty language tag is sent to
`infer_lang`; shell-family tags call the service with the language, python
calls it with the filename from the directive, and any other tag reaches the
branch `exitcode, logs, image = 1, f"unknown language {lang}"`, which
unpacks a 2-tuple into three targets and therefore raises `ValueError`. -/
def mkExecCall {Img : Type} (infer_lang : String → String) (workDir : Option String)
    (b : String × String) (docker : Img) : Except String (ExecCall Img) :=
  let lang := if b.1 = "" then infer_lang b.2 else b.1
  if shellLangs.contains lang then
    Except.ok ⟨b.2, workDir, none, docker, some lang⟩
  else if lang = "python" then
    Except.ok ⟨b.2, workDir, pythonFilename b.2, docker, none⟩
  else
    Except.error ("ValueError: not enough values to unpack (expected 3, got 2): 1, unknown language " ++ lang)

/-- Loop body of `_execute_code`.  Arguments mirror the source's state:
remaining blocks, the `_use_docker` field, `logs_all`, the last bound
`exitcode` (`none` before the first iteration: returning then is Python's
`UnboundLocalError`), plus the trace of service calls made so far.  After
each service call the field is overwritten with the returned `image` and the
decoded log is appended behind a newline; a non-zero exit returns at once. -/
def _execute_code_go {Img : Type} (svc : ExecCall Img → Int × String × Img)
    (infer_lang : String → String) (workDir : Option String) :
    List (String × String) → Img → String → Option Int → List (ExecCall Img) →
      Except String (Int × String) × Img × List (ExecCall Img)
  | [], docker, logsAll, last, calls =>
    match last with
    | some e => (Except.ok (e, logsAll), docker, calls)
    | none => (Except.error "UnboundLocalError: local variable referenced before assignment", docker, calls)
  | b :: rest, docker, logsAll, _, calls =>
    match mkExecCall infer_lang workDir b docker with
    | Except.error e => (Except.error e, docker, calls)
    | Except.ok call =>
      let r := svc call
      let logsAll' := logsAll ++ "\n" ++ r.2.1
      if r.1 ≠ 0 then (Except.ok (r.1, logsAll'), r.2.2, calls ++ [call])
      else _execute_code_go svc infer_lang workDir rest r.2.2 logsAll' (some r.1) (calls ++ [call])

/-- `UserProxyAgent._execute_code`, with the external service, `infer_lang`,
the working directory and the initial `_use_docker` value as parameters.
Returns the `(exitcode, logs_all)` pair (or the propagated exception), the
final `_use_docker` value, and the sequence of service invocations. -/
def _execute_code {Img : Type} (svc : ExecCall Img → Int × String × Img)
    (infer_lang : String → String) (workDir : Option String)
    (code_blocks : List (String × String)) (useDocker : Img) :
    Except String (Int × String) × Img × List (ExecCall Img) :=
  _execute_code_go svc infer_lang workDir code_blocks useDocker "" none []

/-- A block's effective language is recognized: shell-family or python. -/
def recognizedLang (infer_lang : String → String) (b : String × String) : Bool :=
  let lang := if b.1 = "" then infer_lang b.2 else b.1
  shellLangs.contains lang || lang == "python"

/-- Modelled from the spec: sequential execution of recognized code blocks,
stopping at the first non-zero exit code; the result carries that block's
exit code, the logs up through it (each behind a newline separator), the
execution-context value after the last executed block, and the calls made. -/
def specShortCircuit {Img : Type} (svc : ExecCall Img → Int × String × Img)
    (infer_lang : String → String) (workDir : Option String) :
    List (String × String) → Img → Option (Int × String × Img × List (ExecCall Img))
  | [], _ => none
  | b :: rest, docker =>
    match mkExecCall infer_lang workDir b docker with
    | Except.error _ => none
    | Except.ok call =>
      let r := svc call
      if r.1 ≠ 0 ∨ rest = [] then some (r.1, "\n" ++ r.2.1, r.2.2, [call])
      else
        match specShortCircuit svc infer_lang workDir rest r.2.2 with
        | none => none
        | some q => some (q.1, "\n" ++ r.2.1 ++ q.2.1, q.2.2.1, call :: q.2.2.2)

/-- Python type names, as they appear in an `AttributeError` message. -/
def jsonTypeName : Json → String
  | Json.null => "NoneType"
  | Json.bool _ => "bool"
  | Json.num _ => "int"
  | Json.str _ => "str"
  | Json.arr _ => "list"
  | Json.obj _ => "dict"

/-- An external callable: named arguments in, the stringified return value
out (`str(content)` is applied by the caller to whatever the callable
returns; this model carries the resulting text).  `Except.error` models a
raised exception, carrying `str(e)`. -/
def PyCallable : Type := List (String × Json) → Except String String

/-- The two shapes of a function-registry entry: a direct callable under the
key `"function"`, or a persistent class instance under the key `"class"`
(with its named methods and its `__call__` behaviour). -/
inductive FuncTarget where
  | function (f : PyCallable)
  | cls (methods : List (String × PyCallable)) (call : PyCallable)

/-- One entry of `function_map`: the callable shape, the optional
`"func_name"` key, and the statically bound `"args"` mapping. -/
structure FuncEntry where
  target : FuncTarget
  func_name : Option String := none
  args : List (String × Json) := []

/-- `func_call`, a mapping read with `.get("name", "")` and
`.get("arguments", "")`: absent keys are these defaults. -/
structure FuncCall where
  name : String := ""
  arguments : String := ""

/-- The result mapping `{name, role, content}` built by
`_execute_function`. -/
structure FuncResultMsg where
  name : String
  role : String
  content : String
deriving DecidableEq

/-- `getattr(func_dict["class"], func_dict.get("func_name", None),
func_dict["class"])` followed by use as a callable: a missing `func_name`
key passes `None` to `getattr`, which raises `TypeError`; a named method is
looked up on the instance, falling back to the instance itself (its
`__call__`).  For a `"function"` entry the callable is taken directly. -/
def resolveCallable (entry : FuncEntry) : Except String PyCallable :=
  match entry.target with
  | FuncTarget.function f => Except.ok f
  | FuncTarget.cls methods call =>
    match entry.func_name with
    | none => Except.error "attribute name must be string"
    | some n =>
      match methods.lookup n with
      | some m => Except.ok m
      | none => Except.ok call

/-- Resolution and invocation, the two steps inside the source's
`try` block: an error from either is the caught exception text. -/
def invokeEntry (entry : FuncEntry) (args : List (String × Json)) : Except String String :=
  match resolveCallable entry with
  | Except.ok f => f args
  | Except.error e => Except.error e

/-- Python `dict.update`: keys of the second mapping override in place,
new keys are appended in order. -/
def dictUpdate (base upd : List (String × Json)) : List (String × Json) :=
  upd.foldl
    (fun acc kv =>
      if acc.any (fun p => p.1 == kv.1) then
        acc.map (fun p => if p.1 == kv.1 then (p.1, kv.2) else p)
      else acc ++ [kv])
    base

/-- `UserProxyAgent._execute_function`.  The registry lookup and the
`arguments.update(...)` merge happen before the `try` block: when
`_extract_args` yields a non-object JSON value, `.update` raises
`AttributeError` and the exception propagates (`Except.error`).  Errors
raised while resolving or invoking the callable are caught and reported as
`(False, {...content: "Error: <message>"})`. -/
def _execute_function (function_map : List (String × FuncEntry)) (func_call : FuncCall) :
    Except String (Bool × FuncResultMsg) :=
  let func_name := func_call.name
  match function_map.lookup func_name with
  | some func_dict =>
    match _extract_args func_call.arguments with
    | Json.obj kvs =>
      let arguments := dictUpdate kvs func_dict.args
      match invokeEntry func_dict arguments with
      | Except.ok content =>
        Except.ok (true, ⟨func_name, "function", content⟩)
      | Except.error e =>
        Except.ok (false, ⟨func_name, "function", "Error: " ++ e⟩)
    | v =>
      Except.error ("AttributeError: " ++ jsonTypeName v ++ " object has no attribute update")
  | none =>
    Except.ok (false, ⟨func_name, "function", "Error: Function " ++ func_name ++ " not found."⟩)

/-- A normalized message: a mapping with optional `content` and `role`
fields (the fields `receive` inspects). -/
structure Msg where
  content : Option String := none
  role : Option String := none

/-- A message at the receive boundary: bare text or a mapping. -/
inductive MsgIn where
  | text (s : String)
  | dict (m : Msg)

/-- Bare text is normalized into `{"content": message, "role": "user"}`. -/
def normalizeMsg : MsgIn → Msg
  | MsgIn.text s => { content := some s, role := some "user" }
  | MsgIn.dict m => m

/-- The default `is_termination_msg`: a bare string equal to `"TERMINATE"`,
or a mapping whose `content` equals `"TERMINATE"`. -/
def default_is_termination_msg : MsgIn → Bool
  | MsgIn.text s => s == "TERMINATE"
  | MsgIn.dict m => m.content == some "TERMINATE"

/-- The configuration `receive` consults: `human_input_mode`,
`max_consecutive_auto_reply`, and the termination predicate. -/
structure AgentConfig where
  human_input_mode : String
  max_consecutive_auto_reply : Nat
  is_termination_msg : MsgIn → Bool

/-- What `receive` does after the reply is decided: return without sending,
send the human reply, or call `auto_reply` with the given default reply. -/
inductive ReceiveAction where
  | stop
  | sendHuman (reply : String)
  | autoReply (default_reply : String)
deriving DecidableEq

/-- Observable outcome of one `receive`: whether `input()` was called, the
action taken, and the updated per-sender counters. -/
structure ReceiveResult where
  solicited : Bool
  action : ReceiveAction
  counters : String → Nat

/-- The reply-solicitation phase of `receive`: in `ALWAYS` mode prompt the
human; otherwise, when the counter has reached the maximum or the message is
a termination message, prompt in `TERMINATE` mode (an empty answer becomes
`"exit"`) and silently use `"exit"` in any other mode; otherwise the reply
stays empty.  The second component records whether `input()` ran. -/
def solicitReply (cfg : AgentConfig) (count : Nat) (humanInput : String)
    (message : Msg) : String × Bool :=
  if cfg.human_input_mode = "ALWAYS" then (humanInput, true)
  else if cfg.max_consecutive_auto_reply ≤ count ∨
      cfg.is_termination_msg (MsgIn.dict message) then
    if cfg.human_input_mode = "TERMINATE" then
      (if humanInput = "" then "exit" else humanInput, true)
    else ("exit", false)
  else ("", false)

/-- `UserProxyAgent.receive`: normalize the message, decide the reply, then
either stop (resetting this sender's counter), send the non-empty human
reply (resetting the counter), or increment the counter and call
`auto_reply` with `default_reply` set to the empty reply.  `humanInput` is
the text `input()` would return if called; `counters` maps each sender name
to its consecutive-auto-reply counter. -/
def receive (cfg : AgentConfig) (counters : String → Nat) (humanInput : String)
    (msgIn : MsgIn) (senderName : String) : ReceiveResult :=
  let message := normalizeMsg msgIn
  let rs := solicitReply cfg (counters senderName) humanInput message
  let reply := rs.1
  if reply = "exit" ∨ (cfg.is_termination_msg (MsgIn.dict message) ∧ reply = "") then
    ⟨rs.2, ReceiveAction.stop, fun s => if s = senderName then 0 else counters s⟩
  else if reply ≠ "" then
    ⟨rs.2, ReceiveAction.sendHuman reply, fun s => if s = senderName then 0 else counters s⟩
  else
    ⟨rs.2, ReceiveAction.autoReply reply, fun s => if s = senderName then counters s + 1 else counters s⟩

/-- The dual-purpose values the `_use_docker` field can hold: the boolean
sandbox flag set at construction, or an execution-context handle returned by
the execution service. -/
inductive DockerVal where
  | flag (b : Bool)
  | handle (n : Nat)
deriving DecidableEq

/-- A valid single-line JSON input containing a key with an escaped
backslash followed by a tab used as inter-token whitespace. -/
def c7Input : String := "\x7b\"a\\\\\":\t1\x7d"

/-! ## Parser lemmas -/

/-- `_format_json_str`'s scan leaves a string without newline and tab
characters unchanged. -/
theorem formatChars_id (l : List Char) :
    ∀ (inside : Bool) (last : Char), (∀ c ∈ l, c ≠ '\n' ∧ c ≠ '\t') →
      formatChars inside last l = l := by
  induction l with
  | nil => intro _ _ _; rfl
  | cons c rest ih =>
    intro inside last h
    have hc := h c (List.mem_cons_self c rest)
    have hrest : ∀ x ∈ rest, x ≠ '\n' ∧ x ≠ '\t' :=
      fun x hx => h x (List.mem_cons_of_mem c hx)
    simp only [formatChars]
    simp [hc.1, hc.2, ih _ _ hrest]

/-! ## C6 -/

/-- C6: `_extract_args` returns the empty mapping, rather than raising, when
the normalized string fails to parse as JSON; and on the concrete multi-line
input with an embedded newline inside the string value, it returns the
mapping with the newline preserved inside the value while the newlines
between tokens are dropped. -/
theorem C6_extract_args :
    (∀ s : String, json_loads (_format_json_str s) = none → _extract_args s = Json.obj []) ∧
    _extract_args "\x7b\n\"tool\": \"python\",\n\"query\": \"print(1)\nprint(2)\"\n\x7d" =
      Json.obj [("tool", Json.str "python"), ("query", Json.str "print(1)\nprint(2)")] := by
  constructor
  · intro s h
    simp [_extract_args, h]
  · have h1 : _format_json_str
        "\x7b\n\"tool\": \"python\",\n\"query\": \"print(1)\nprint(2)\"\n\x7d" =
        "\x7b\"tool\": \"python\",\"query\": \"print(1)\\nprint(2)\"\x7d" := rfl
    unfold _extract_args
    rw [h1]
    exact rfl

/-- Witness for C6 at the unparsable input consisting of a lone brace. -/
theorem C6_extract_args_witness :
    json_loads (_format_json_str "\x7b") = none ∧ _extract_args "\x7b" = Json.obj [] :=
  ⟨rfl, C6_extract_args.1 "\x7b" rfl⟩

/-! ## C7 -/

/-- Counterexample to C7: `c7Input` is already-valid single-line JSON (no
literal newline; it parses), yet parsing its normalized image fails — the
quote tracker treats the escaped backslash before the closing quote as an
escape of the quote, stays inside the string, and escapes the inter-token
tab into a two-character sequence that is invalid JSON. -/
theorem C7_counterexample :
    ('\n' ∉ c7Input.data) ∧
    json_loads c7Input = some (Json.obj [("a\\", Json.num 1)]) ∧
    json_loads (_format_json_str c7Input) = none ∧
    json_loads (_format_json_str c7Input) ≠ json_loads c7Input := by
  refine ⟨by decide, rfl, rfl, ?_⟩
  intro h
  rw [show json_loads (_format_json_str c7Input) = none from rfl,
    show json_loads c7Input = some (Json.obj [("a\\", Json.num 1)]) from rfl] at h
  exact Option.noConfusion h

/-- C7 (amended): for every string without literal newlines and without tab
characters — in particular every already-valid single-line tab-free JSON
string, escaped quotes and escaped backslashes included — the normalization
pass is the identity, so parsing its image agrees with parsing it directly. -/
theorem C7_parse_format (x : String)
    (h : ∀ c ∈ x.data, c ≠ '\n' ∧ c ≠ '\t') :
    json_loads (_format_json_str x) = json_loads x := by
  unfold _format_json_str
  rw [formatChars_id x.data false ' ' h]

/-- Witness for C7 (amended) at a concrete single-line JSON object. -/
theorem C7_parse_format_witness :
    json_loads (_format_json_str "\x7b\"a\": 1\x7d") = json_loads "\x7b\"a\": 1\x7d" :=
  C7_parse_format "\x7b\"a\": 1\x7d" (by decide)

/-! ## C1 -/

/-- Counterexample to C1: the name is registered, but the arguments string
parses to the JSON value `5`, which is not an object; the merge step
`arguments.update(...)` runs outside the `try` block, so the
`AttributeError` propagates to the caller instead of being returned as a
`(failure, Error message)` pair. -/
theorem C1_counterexample :
    _execute_function
        [("f", ⟨FuncTarget.function (fun _ => Except.ok "1"), none, []⟩)]
        ⟨"f", "5"⟩ =
      Except.error "AttributeError: int object has no attribute update" := rfl

/-- C1 (amended): for a registered name, whenever the parsed arguments form
a JSON object (which includes every parse failure, degraded to the empty
object), `_execute_function` returns a pair and never raises: an exception
while resolving or invoking the callable yields
`(failure, ⟨name, "function", "Error: <message>"⟩)`, and a successful call
yields `(success, ⟨name, "function", content⟩)`. -/
theorem C1_execute_function (function_map : List (String × FuncEntry))
    (fc : FuncCall) (entry : FuncEntry) (kvs : List (String × Json))
    (hreg : function_map.lookup fc.name = some entry)
    (hargs : _extract_args fc.arguments = Json.obj kvs) :
    (∀ e, invokeEntry entry (dictUpdate kvs entry.args) = Except.error e →
      _execute_function function_map fc =
        Except.ok (false, ⟨fc.name, "function", "Error: " ++ e⟩)) ∧
    (∀ c, invokeEntry entry (dictUpdate kvs entry.args) = Except.ok c →
      _execute_function function_map fc =
        Except.ok (true, ⟨fc.name, "function", c⟩)) := by
  constructor
  · intro e he
    simp [_execute_function, hreg, hargs, he]
  · intro c hc
    simp [_execute_function, hreg, hargs, hc]

/-- Witness for C1 (amended): a registered callable that raises is reported
as a failure result, and one that returns is reported as a success. -/
theorem C1_execute_function_witness :
    _execute_function
        [("f", ⟨FuncTarget.function (fun _ => Except.error "boom"), none, []⟩)]
        ⟨"f", "\x7b\x7d"⟩ =
      Except.ok (false, ⟨"f", "function", "Error: boom"⟩) ∧
    _execute_function
        [("g", ⟨FuncTarget.function (fun _ => Except.ok "15"), none, []⟩)]
        ⟨"g", "\x7b\"n\": 5\x7d"⟩ =
      Except.ok (true, ⟨"g", "function", "15"⟩) :=
  ⟨(C1_execute_function
      [("f", ⟨FuncTarget.function (fun _ => Except.error "boom"), none, []⟩)]
      ⟨"f", "\x7b\x7d"⟩
      ⟨FuncTarget.function (fun _ => Except.error "boom"), none, []⟩ [] rfl rfl).1 "boom" rfl,
   (C1_execute_function
      [("g", ⟨FuncTarget.function (fun _ => Except.ok "15"), none, []⟩)]
      ⟨"g", "\x7b\"n\": 5\x7d"⟩
      ⟨FuncTarget.function (fun _ => Except.ok "15"), none, []⟩ [("n", Json.num 5)] rfl rfl).2 "15" rfl⟩

/-! ## C2 -/

/-- C2: at a code block whose language is neither shell-family nor python,
`_execute_code` does not return the synthetic `(1, message)` result the spec
describes: the assignment unpacks the 2-tuple
`1, f"unknown language {lang}"` into three targets and raises `ValueError`
before any result is produced; the execution service is never invoked (the
call trace stays empty) and the `_use_docker` field is untouched. -/
theorem C2_unknown_language_raises :
    @_execute_code Bool (fun _ => (0, "", true)) (fun _ => "unknown") none
        [("java", "print(1)")] true =
      (Except.error
        "ValueError: not enough values to unpack (expected 3, got 2): 1, unknown language java",
        true, []) := rfl

/-! ## C8 -/

/-- C8: the sandbox-enable flag and the context handle are not two distinct
pieces of state.  Executing two blocks with a service that returns fresh
context handles shows the single `_use_docker` field being overwritten: the
first call still receives the construction-time flag, but the second call
receives the first call's handle, and after the run the field holds the
second handle, not the construction-time boolean. -/
theorem C8_use_docker_overwritten :
    (_execute_code
        (fun call =>
          (0, "log",
            match call.useDocker with
            | DockerVal.flag _ => DockerVal.handle 7
            | DockerVal.handle n => DockerVal.handle (n + 1)))
        (fun _ => "") none
        [("python", "a"), ("python", "b")] (DockerVal.flag true)).2.1 =
      DockerVal.handle 8 ∧
    (_execute_code
        (fun call =>
          (0, "log",
            match call.useDocker with
            | DockerVal.flag _ => DockerVal.handle 7
            | DockerVal.handle n => DockerVal.handle (n + 1)))
        (fun _ => "") none
        [("python", "a"), ("python", "b")] (DockerVal.flag true)).2.2.map
        (fun c => c.useDocker) =
      [DockerVal.flag true, DockerVal.handle 7] ∧
    DockerVal.handle 8 ≠ DockerVal.flag true := by
  refine ⟨rfl, rfl, ?_⟩
  intro h
  exact DockerVal.noConfusion h

/-! ## C9 -/

/-- Counterexample to C9: a python block whose whole source is the directive
line `"# filename: foo.py"` with no subsequent newline.  `code.find("\n")`
returns `-1`, so the slice `code[11:-1]` drops the final character and the
service is invoked with filename `"foo.p"`, not the full payload
`"foo.py"`. -/
theorem C9_counterexample :
    (@_execute_code Bool (fun _ => (0, "", true)) (fun _ => "") none
        [("python", "# filename: foo.py")] true).2.2.map (fun c => c.filename) =
      [some "foo.p"] ∧
    pythonFilename "# filename: foo.py" = some "foo.p" ∧
    (some "foo.p" : Option String) ≠ some "foo.py" := by
  refine ⟨?_, ?_, ?_⟩
  · rfl
  · rfl
  · decide

/-! ## C3 -/

/-- Counterexample to C3: `NEVER` mode with maximum 1 and the sender's
counter at 1.  The message is not a termination message, no human input is
solicited, and no human reply of any kind exists — yet the counter is reset
from 1 to 0 (the cap-reached turn synthesizes `reply = "exit"`).  So a reset
occurs outside the claim's three listed triggers. -/
theorem C3_counterexample :
    (receive ⟨"NEVER", 1, default_is_termination_msg⟩ (fun _ => 1) ""
        (MsgIn.text "hello") "peer").solicited = false ∧
    (receive ⟨"NEVER", 1, default_is_termination_msg⟩ (fun _ => 1) ""
        (MsgIn.text "hello") "peer").action = ReceiveAction.stop ∧
    default_is_termination_msg (MsgIn.dict (normalizeMsg (MsgIn.text "hello"))) = false ∧
    (receive ⟨"NEVER", 1, default_is_termination_msg⟩ (fun _ => 1) ""
        (MsgIn.text "hello") "peer").counters "peer" = 0 := by
  refine ⟨?_, ?_, ?_, ?_⟩ <;> decide

/-- C3 (amended): the counter for a sender is reset to zero exactly when
the effective reply is non-empty (a human reply that is sent, an explicit
or synthesized `"exit"`) or the message is a termination message; on every
other receive — a fully-automatic turn — it is incremented by exactly one
(hence non-decreasing across a run of such turns), and other senders'
counters are never touched. -/
theorem C3_counter_resets (cfg : AgentConfig) (counters : String → Nat)
    (humanInput : String) (msgIn : MsgIn) (sender : String) :
    (((solicitReply cfg (counters sender) humanInput (normalizeMsg msgIn)).1 ≠ "" ∨
        cfg.is_termination_msg (MsgIn.dict (normalizeMsg msgIn)) = true) →
      (receive cfg counters humanInput msgIn sender).counters sender = 0) ∧
    (((solicitReply cfg (counters sender) humanInput (normalizeMsg msgIn)).1 = "" ∧
        cfg.is_termination_msg (MsgIn.dict (normalizeMsg msgIn)) = false) →
      (receive cfg counters humanInput msgIn sender).counters sender = counters sender + 1 ∧
        (receive cfg counters humanInput msgIn sender).action = ReceiveAction.autoReply "") ∧
    (∀ s, s ≠ sender → (receive cfg counters humanInput msgIn sender).counters s = counters s) := by
  simp only [receive]
  refine ⟨?_, ?_, ?_⟩
  · intro h
    split_ifs with h1 h2
    · simp
    · simp
    · exfalso
      have hre : (solicitReply cfg (counters sender) humanInput (normalizeMsg msgIn)).1 = "" :=
        not_not.mp h2
      rcases h with hne | hterm
      · exact hne hre
      · exact h1 (Or.inr ⟨hterm, hre⟩)
  · rintro ⟨hre, hterm⟩
    split_ifs with h1 h2
    · exfalso
      rcases h1 with hx | ht
      · rw [hre] at hx
        exact absurd hx (by decide)
      · rw [hterm] at ht
        exact absurd ht.1 (by decide)
    · exact absurd hre h2
    · exact ⟨by simp, by rw [hre]⟩
  · intro s hs
    split_ifs <;> simp [hs]

/-- Witness for C3 (amended): a non-empty human reply resets the counter,
a fully-automatic turn increments it, and an unrelated sender's counter is
unchanged. -/
theorem C3_counter_resets_witness :
    (receive ⟨"ALWAYS", 100, default_is_termination_msg⟩ (fun _ => 4) "ok"
        (MsgIn.text "hi") "p").counters "p" = 0 ∧
    ((receive ⟨"TERMINATE", 100, default_is_termination_msg⟩ (fun _ => 4) ""
        (MsgIn.text "hi") "p").counters "p" = 5 ∧
      (receive ⟨"TERMINATE", 100, default_is_termination_msg⟩ (fun _ => 4) ""
        (MsgIn.text "hi") "p").action = ReceiveAction.autoReply "") ∧
    (receive ⟨"ALWAYS", 100, default_is_termination_msg⟩ (fun _ => 4) "ok"
        (MsgIn.text "hi") "p").counters "q" = 4 :=
  ⟨(C3_counter_resets ⟨"ALWAYS", 100, default_is_termination_msg⟩ (fun _ => 4) "ok"
      (MsgIn.text "hi") "p").1 (Or.inl (by decide)),
   (C3_counter_resets ⟨"TERMINATE", 100, default_is_termination_msg⟩ (fun _ => 4) ""
      (MsgIn.text "hi") "p").2.1 ⟨by decide, by decide⟩,
   (C3_counter_resets ⟨"ALWAYS", 100, default_is_termination_msg⟩ (fun _ => 4) "ok"
      (MsgIn.text "hi") "p").2.2 "q" (by decide)⟩

/-! ## C4 -/

/-- Counterexample to C4: `TERMINATE` mode at the cap (maximum 1, counter 1)
with an empty solicited human reply and a non-termination message.  The
claim says this turn increments the counter and invokes auto-reply; the
code converts the empty reply to `"exit"`, stops, and resets the counter. -/
theorem C4_counterexample :
    (receive ⟨"TERMINATE", 1, default_is_termination_msg⟩ (fun _ => 1) ""
        (MsgIn.text "hello") "peer").solicited = true ∧
    default_is_termination_msg (MsgIn.dict (normalizeMsg (MsgIn.text "hello"))) = false ∧
    (receive ⟨"TERMINATE", 1, default_is_termination_msg⟩ (fun _ => 1) ""
        (MsgIn.text "hello") "peer").action = ReceiveAction.stop ∧
    (receive ⟨"TERMINATE", 1, default_is_termination_msg⟩ (fun _ => 1) ""
        (MsgIn.text "hello") "peer").counters "peer" = 0 := by
  refine ⟨?_, ?_, ?_, ?_⟩ <;> decide

/-- C4 (amended): when the human reply is empty, the message is not a
termination message, and the cap/termination prompt did not fire (the mode
is `ALWAYS`, or the sender's counter is below the maximum), `receive`
increments the sender's counter by exactly one and invokes auto-reply
generation with `default_reply` set to the empty human input.  (At the cap
in `TERMINATE` or `NEVER` mode, the empty reply is instead converted to
`"exit"` and the conversation stops.) -/
theorem C4_empty_reply_auto (cfg : AgentConfig) (counters : String → Nat)
    (humanInput : String) (msgIn : MsgIn) (sender : String)
    (hterm : cfg.is_termination_msg (MsgIn.dict (normalizeMsg msgIn)) = false)
    (hempty : humanInput = "")
    (hcap : cfg.human_input_mode = "ALWAYS" ∨
      counters sender < cfg.max_consecutive_auto_reply) :
    (receive cfg counters humanInput msgIn sender).action = ReceiveAction.autoReply "" ∧
    (receive cfg counters humanInput msgIn sender).counters sender =
      counters sender + 1 := by
  have hrep : (solicitReply cfg (counters sender) humanInput (normalizeMsg msgIn)).1 = "" := by
    unfold solicitReply
    by_cases hm : cfg.human_input_mode = "ALWAYS"
    · simp [hm, hempty]
    · have hlt : counters sender < cfg.max_consecutive_auto_reply := hcap.resolve_left hm
      simp [hm, hterm, Nat.not_le.mpr hlt]
  simp only [receive]
  rw [hrep]
  simp [hterm]

/-- Witness for C4 (amended) in `ALWAYS` mode with an empty human reply. -/
theorem C4_empty_reply_auto_witness :
    (receive ⟨"ALWAYS", 100, default_is_termination_msg⟩ (fun _ => 0) ""
        (MsgIn.text "hi") "p").action = ReceiveAction.autoReply "" ∧
    (receive ⟨"ALWAYS", 100, default_is_termination_msg⟩ (fun _ => 0) ""
        (MsgIn.text "hi") "p").counters "p" = 1 :=
  C4_empty_reply_auto ⟨"ALWAYS", 100, default_is_termination_msg⟩ (fun _ => 0) ""
    (MsgIn.text "hi") "p" rfl rfl (Or.inl rfl)

/-! ## C5 -/

/-- String concatenation is associative (on the list embedding). -/
theorem str_append_assoc (a b c : String) : (a ++ b) ++ c = a ++ (b ++ c) :=
  String.ext (by simp [String.data_append])

/-- A recognized block always produces a service call (no branch raises). -/
theorem mkExecCall_ok_of_recognized {Img : Type} (infer_lang : String → String)
    (workDir : Option String) (b : String × String) (docker : Img)
    (h : recognizedLang infer_lang b = true) :
    ∃ call, mkExecCall infer_lang workDir b docker = Except.ok call := by
  unfold recognizedLang at h
  unfold mkExecCall
  by_cases h1 : (if b.1 = "" then infer_lang b.2 else b.1) ∈ shellLangs
  · exact ⟨⟨b.2, workDir, none, docker, some (if b.1 = "" then infer_lang b.2 else b.1)⟩,
      by simp [h1]⟩
  · have h2 : (if b.1 = "" then infer_lang b.2 else b.1) = "python" := by
      rw [Bool.or_eq_true] at h
      rcases h with h | h
      · exact absurd (by simpa using h) h1
      · exact eq_of_beq h
    exact ⟨⟨b.2, workDir, pythonFilename b.2, docker, none⟩,
      by simp [h1, h2, shellLangs]⟩

/-- The loop of `_execute_code` refines the claim-side short-circuit
description, for any accumulated logs, last exit code and call trace. -/
theorem exec_go_spec {Img : Type} (svc : ExecCall Img → Int × String × Img)
    (infer_lang : String → String) (workDir : Option String) :
    ∀ blocks : List (String × String), blocks ≠ [] →
      (∀ b ∈ blocks, recognizedLang infer_lang b = true) →
      ∀ (docker : Img) (logsAll : String) (last : Option Int)
        (calls : List (ExecCall Img)),
        ∃ out, specShortCircuit svc infer_lang workDir blocks docker = some out ∧
          _execute_code_go svc infer_lang workDir blocks docker logsAll last calls =
            (Except.ok (out.1, logsAll ++ out.2.1), out.2.2.1, calls ++ out.2.2.2) := by
  intro blocks
  induction blocks with
  | nil => intro h; exact absurd rfl h
  | cons b rest ih =>
    intro _ hrec docker logsAll last calls
    obtain ⟨call, hcall⟩ := mkExecCall_ok_of_recognized infer_lang workDir b docker
      (hrec b (List.mem_cons_self b rest))
    rcases hsvc : svc call with ⟨e, lg, im⟩
    simp only [specShortCircuit, _execute_code_go, hcall, hsvc]
    by_cases he : e = 0
    · subst he
      by_cases hr : rest = []
      · subst hr
        refine ⟨(0, "\n" ++ lg, im, [call]), by simp, ?_⟩
        simp [_execute_code_go, str_append_assoc]
      · obtain ⟨out', hs', hg'⟩ := ih hr
          (fun x hx => hrec x (List.mem_cons_of_mem b hx))
          im (logsAll ++ "\n" ++ lg) (some 0) (calls ++ [call])
        refine ⟨(out'.1, "\n" ++ lg ++ out'.2.1, out'.2.2.1, call :: out'.2.2.2), ?_, ?_⟩
        · simp [hr, hs']
        · rw [if_neg (by simp : ¬((0 : Int) ≠ 0)), hg']
          simp [str_append_assoc, List.append_assoc]
    · refine ⟨(e, "\n" ++ lg, im, [call]), by simp [he], ?_⟩
      simp [he, str_append_assoc]

/-- C5: on a non-empty sequence of recognized code blocks, `_execute_code`
behaves exactly as the short-circuit description: blocks run in order, the
run stops at the first non-zero exit code, the returned exit code is that
block's (the last block's, 0, when all succeed), the aggregate log holds
exactly the logs up through the last executed block each behind a newline
separator, and the service-call trace contains no block past the first
failure. -/
theorem C5_short_circuit {Img : Type} (svc : ExecCall Img → Int × String × Img)
    (infer_lang : String → String) (workDir : Option String)
    (blocks : List (String × String)) (docker : Img)
    (hne : blocks ≠ [])
    (hrec : ∀ b ∈ blocks, recognizedLang infer_lang b = true) :
    ∃ out, specShortCircuit svc infer_lang workDir blocks docker = some out ∧
      _execute_code svc infer_lang workDir blocks docker =
        (Except.ok (out.1, out.2.1), out.2.2.1, out.2.2.2) := by
  obtain ⟨out, h1, h2⟩ := exec_go_spec svc infer_lang workDir blocks hne hrec docker "" none []
  refine ⟨out, h1, ?_⟩
  unfold _execute_code
  rw [h2]
  simp [String.empty_append]

/-- Witness for C5 at a two-block sequence under an always-succeeding
service. -/
theorem C5_short_circuit_witness :
    ∃ out, @specShortCircuit Bool (fun _ => (0, "done", true)) (fun _ => "") none
        [("python", "print(1)"), ("sh", "ls")] true = some out ∧
      _execute_code (fun _ => (0, "done", true)) (fun _ => "") none
        [("python", "print(1)"), ("sh", "ls")] true =
        (Except.ok (out.1, out.2.1), out.2.2.1, out.2.2.2) :=
  C5_short_circuit (fun _ => (0, "done", true)) (fun _ => "") none
    [("python", "print(1)"), ("sh", "ls")] true (by decide) (by decide)

/-- Executing a single python block makes exactly one service call, carrying
the filename computed by `pythonFilename`, whatever the service returns. -/
theorem exec_single_python_trace {Img : Type} (svc : ExecCall Img → Int × String × Img)
    (infer_lang : String → String) (workDir : Option String) (code : String)
    (docker : Img) :
    (_execute_code svc infer_lang workDir [("python", code)] docker).2.2 =
      [⟨code, workDir, pythonFilename code, docker, none⟩] := by
  have hcall : @mkExecCall Img infer_lang workDir ("python", code) docker =
      Except.ok ⟨code, workDir, pythonFilename code, docker, none⟩ := by
    simp [mkExecCall, shellLangs]
  unfold _execute_code
  simp only [_execute_code_go, hcall]
  split <;> simp [_execute_code_go]

/-- `findIdx?` misses a character that is not in the list. -/
theorem findIdx_none_of_not_mem {l : List Char} {c : Char} (h : c ∉ l) :
    l.findIdx? (fun x => x = c) = none := by
  rw [List.findIdx?_eq_none_iff]
  intro x hx
  simp only [decide_eq_false_iff_not]
  exact fun hxc => h (hxc ▸ hx)

/-- `strip` ignores one leading space. -/
theorem pyStrip_cons_space (l : List Char) : pyStrip (' ' :: l) = pyStrip l := by
  simp [pyStrip, List.dropWhile_cons, show isPySpace ' ' = true from rfl]

/-- A non-negative slice is a take-then-drop on clamped bounds. -/
theorem pySlice_of_nonneg {l : List Char} {i j : Int} (hi : 0 ≤ i) (hj : 0 ≤ j) :
    pySlice l i j = (l.take (min j.toNat l.length)).drop (min i.toNat l.length) := by
  unfold pySlice
  rw [if_neg (by omega), if_neg (by omega)]

/-- A slice with a negative upper bound counts from the end. -/
theorem pySlice_of_neg {l : List Char} {i j : Int} (hi : 0 ≤ i) (hj : j < 0) :
    pySlice l i j = (l.take ((l.length : Int) + j).toNat).drop (min i.toNat l.length) := by
  unfold pySlice
  rw [if_pos hj, if_neg (by omega)]

/-- The directive with a subsequent newline: the filename is the full
payload (given a payload with no newline and no surrounding whitespace). -/
theorem pythonFilename_directive (name rest : String)
    (hnl : '\n' ∉ name.data) (hstrip : pyStrip name.data = name.data) :
    pythonFilename ("# filename: " ++ name ++ "\n" ++ rest) = some name := by
  have hdata : ("# filename: " ++ name ++ "\n" ++ rest).data =
      "# filename: ".data ++ (name.data ++ '\n' :: rest.data) := by
    simp [String.data_append]
  unfold pythonFilename pyStartsWith
  rw [hdata, if_pos (by simp [ List.isPrefixOf_iff_prefix])]
  have hfind : pyFindChar ("# filename: ".data ++ (name.data ++ '\n' :: rest.data)) '\n' =
      ((name.data.length + 12 : Nat) : Int) := by
    unfold pyFindChar
    rw [List.findIdx?_append, List.findIdx?_append,
      findIdx_none_of_not_mem (show '\n' ∉ "# filename: ".data from by decide),
      findIdx_none_of_not_mem hnl]
    simp [List.findIdx?_cons, show "# filename: ".data.length = 12 from rfl]
  rw [hfind]
  have hlen : ("# filename: ".data ++ (name.data ++ '\n' :: rest.data)).length =
      name.data.length + rest.data.length + 13 := by
    simp [show "# filename: ".data.length = 12 from rfl]
    omega
  have hslice : pySlice ("# filename: ".data ++ (name.data ++ '\n' :: rest.data)) 11
      ((name.data.length + 12 : Nat) : Int) = ' ' :: name.data := by
    rw [pySlice_of_nonneg (by omega) (by omega)]
    have h1 : Int.toNat ((name.data.length + 12 : Nat) : Int) = name.data.length + 12 := by
      omega
    have h2 : Int.toNat (11 : Int) = 11 := rfl
    rw [h1, h2, Nat.min_eq_left (by omega), Nat.min_eq_left (by omega)]
    rw [show name.data.length + 12 = "# filename: ".data.length + name.data.length from by
      rw [show "# filename: ".data.length = 12 from rfl]; omega]
    rw [List.take_append, List.take_left]
    rw [List.drop_append_eq_append_drop]
    simp [show "# filename: ".data.drop 11 = [' '] from rfl,
      show "# filename: ".data.length = 12 from rfl]
  rw [hslice, pyStrip_cons_space, hstrip]

/-- The directive with no subsequent newline: `find` returns `-1`, the slice
drops the final character of the rest of the line. -/
theorem pythonFilename_directive_no_newline (name : String) (hnl : '\n' ∉ name.data) :
    pythonFilename ("# filename: " ++ name) =
      some (String.mk (pyStrip ((' ' :: name.data).dropLast))) := by
  have hdata : ("# filename: " ++ name).data = "# filename: ".data ++ name.data := by
    simp [String.data_append]
  unfold pythonFilename pyStartsWith
  rw [hdata, if_pos (by simp [ List.isPrefixOf_iff_prefix])]
  have hfind : pyFindChar ("# filename: ".data ++ name.data) '\n' = -1 := by
    unfold pyFindChar
    rw [List.findIdx?_append,
      findIdx_none_of_not_mem (show '\n' ∉ "# filename: ".data from by decide),
      findIdx_none_of_not_mem hnl]
    rfl
  rw [hfind]
  have hlen : ("# filename: ".data ++ name.data).length = name.data.length + 12 := by
    simp [show "# filename: ".data.length = 12 from rfl]
  have hslice : pySlice ("# filename: ".data ++ name.data) 11 (-1) =
      (' ' :: name.data).dropLast := by
    rw [pySlice_of_neg (by omega) (by omega)]
    have htn : Int.toNat ((("# filename: ".data ++ name.data).length : Int) + (-1)) =
        name.data.length + 11 := by omega
    rw [htn, Nat.min_eq_left (by omega), show Int.toNat 11 = 11 from rfl]
    rcases List.eq_nil_or_concat name.data with hn | ⟨l₂, a, hn⟩
    · rw [hn]
      rfl
    · rw [List.concat_eq_append] at hn
      rw [hn]
      rw [show (l₂ ++ [a]).length = l₂.length + 1 from by simp]
      rw [show l₂.length + 1 + 11 = "# filename: ".data.length + l₂.length from by
        rw [show "# filename: ".data.length = 12 from rfl]; omega]
      rw [← List.append_assoc]
      rw [show "# filename: ".data.length + l₂.length =
        ("# filename: ".data ++ l₂).length from (List.length_append _ _).symm]
      rw [List.take_left]
      rw [List.drop_append_eq_append_drop]
      rw [show ' ' :: (l₂ ++ [a]) = (' ' :: l₂) ++ [a] from rfl, List.dropLast_concat]
      simp [show "# filename: ".data.drop 11 = [' '] from rfl,
        show "# filename: ".data.length = 12 from rfl]
  rw [hslice]

/-- Without the directive, the filename argument is left unset. -/
theorem pythonFilename_no_directive (code : String)
    (h : pyStartsWith code "# filename: " = false) :
    pythonFilename code = none := by
  unfold pythonFilename
  simp [h]

/-- C9 (amended): for python blocks whose source begins with the directive
`"# filename: <name>"`, the service is invoked with the full payload `<name>`
when a subsequent newline exists, but with the payload minus its final
character (then stripped) when the source has no subsequent newline — the
`-1` returned by `find` makes the slice `code[11:-1]` drop the last
character; when the directive is absent, the filename argument is left
unset so the execution service chooses. -/
theorem C9_filename_directive {Img : Type} (svc : ExecCall Img → Int × String × Img)
    (infer_lang : String → String) (workDir : Option String) (docker : Img) :
    (∀ name rest : String, '\n' ∉ name.data → pyStrip name.data = name.data →
      (_execute_code svc infer_lang workDir
          [("python", "# filename: " ++ name ++ "\n" ++ rest)] docker).2.2.map
        (fun c => c.filename) = [some name]) ∧
    (∀ name : String, '\n' ∉ name.data →
      (_execute_code svc infer_lang workDir
          [("python", "# filename: " ++ name)] docker).2.2.map
        (fun c => c.filename) =
        [some (String.mk (pyStrip ((' ' :: name.data).dropLast)))]) ∧
    (∀ code : String, pyStartsWith code "# filename: " = false →
      (_execute_code svc infer_lang workDir [("python", code)] docker).2.2.map
        (fun c => c.filename) = [none]) := by
  refine ⟨?_, ?_, ?_⟩
  · intro name rest h1 h2
    rw [exec_single_python_trace]
    simp [pythonFilename_directive name rest h1 h2]
  · intro name h1
    rw [exec_single_python_trace]
    simp [pythonFilename_directive_no_newline name h1]
  · intro code h1
    rw [exec_single_python_trace]
    simp [pythonFilename_no_directive code h1]

/-- Witness for C9 (amended): the directive with a newline yields the full
name `foo.py`; without a newline it yields the truncated `foo.p`; a plain
script yields no filename. -/
theorem C9_filename_directive_witness :
    (@_execute_code Bool (fun _ => (0, "", true)) (fun _ => "") none
        [("python", "# filename: " ++ "foo.py" ++ "\n" ++ "print(1)")] true).2.2.map
      (fun c => c.filename) = [some "foo.py"] ∧
    (@_execute_code Bool (fun _ => (0, "", true)) (fun _ => "") none
        [("python", "# filename: " ++ "foo.py")] true).2.2.map
      (fun c => c.filename) = [some "foo.p"] ∧
    (@_execute_code Bool (fun _ => (0, "", true)) (fun _ => "") none
        [("python", "print(1)")] true).2.2.map (fun c => c.filename) = [none] :=
  ⟨(C9_filename_directive (fun _ => (0, "", true)) (fun _ => "") none true).1
      "foo.py" "print(1)" (by decide) rfl,
   (C9_filename_directive (fun _ => (0, "", true)) (fun _ => "") none true).2.1
      "foo.py" (by decide),
   (C9_filename_directive (fun _ => (0, "", true)) (fun _ => "") none true).2.2
      "print(1)" rfl⟩

/-! ## C10 -/

/-- C10: in `NEVER` mode, a message satisfying the termination predicate
makes `receive` return without soliciting human input and without sending
anything, resetting this sender's counter to zero (other senders'
counters are untouched). -/
theorem C10_never_terminate (cfg : AgentConfig) (counters : String → Nat)
    (humanInput : String) (msgIn : MsgIn) (sender : String)
    (hmode : cfg.human_input_mode = "NEVER")
    (hterm : cfg.is_termination_msg (MsgIn.dict (normalizeMsg msgIn)) = true) :
    receive cfg counters humanInput msgIn sender =
      ⟨false, ReceiveAction.stop, fun s => if s = sender then 0 else counters s⟩ := by
  unfold receive solicitReply
  rw [hmode]
  simp [hterm]

/-- Witness for C10 at a concrete `NEVER`-mode controller receiving the
default termination message while the sender's counter is 5. -/
theorem C10_never_terminate_witness :
    receive ⟨"NEVER", 100, default_is_termination_msg⟩ (fun _ => 5) "ignored"
        (MsgIn.text "TERMINATE") "peer" =
      ⟨false, ReceiveAction.stop, fun s => if s = "peer" then 0 else 5⟩ :=
  C10_never_terminate ⟨"NEVER", 100, default_is_termination_msg⟩ (fun _ => 5)
    "ignored" (MsgIn.text "TERMINATE") "peer" rfl rfl

end UserProxy
